import Mathlib

/-!
Verification development for the medico-care medicine-inventory service.

The Python source (models.py, database.py, main.py) is shallowly embedded:
- Python strings are Lean `String`; `str.strip` / `str.lower` / `str.title`
  and code-point lexicographic comparison are modelled character-wise below.
- `datetime.now()` values are modelled as `Nat` timestamps supplied as an
  explicit parameter; the two consecutive `datetime.now()` calls inside one
  create operation are modelled by a single timestamp.
- Calendar dates (`expiry_date`, "today") are modelled as `Nat` day ordinals,
  compared with `≤` exactly as Python compares `date` values.
- The insertion-ordered Python dicts `medicines_db` / `categories_db` are
  modelled as `List` of records in insertion order (Python dicts preserve
  insertion order; re-assigning an existing key keeps its position, which is
  modelled by an in-place `List.map` replacement).
- `uuid.uuid4()` results are modelled as explicitly supplied identifier
  strings.
- pydantic model validation collects one error per failing field, in field
  declaration order; this is modelled by per-field validators whose error
  messages are concatenated.
-/

/-- Whitespace test for `str.strip` (ASCII whitespace, as in the data used
by this service). -/
def pyIsSpace (c : Char) : Bool := c.isWhitespace

/-- Python `str.strip()`: remove leading and trailing whitespace. -/
def pyStrip (s : String) : String :=
  ⟨((s.data.dropWhile pyIsSpace).reverse.dropWhile pyIsSpace).reverse⟩

/-- Python `str.lower()` (ASCII letters, as used by this service). -/
def pyLower (s : String) : String := ⟨s.data.map Char.toLower⟩

/-- Character-wise worker for Python `str.title()`: a letter that follows a
letter is lower-cased, a letter that follows a non-letter (or starts the
string) is upper-cased, other characters pass through. -/
def titleChars : Bool → List Char → List Char
  | _, [] => []
  | prevAlpha, c :: rest =>
    if c.isAlpha then
      (if prevAlpha then c.toLower else c.toUpper) :: titleChars true rest
    else
      c :: titleChars false rest

/-- Python `str.title()`. -/
def pyTitle (s : String) : String := ⟨titleChars false s.data⟩

/-- Python string comparison `s <= t`: code-point lexicographic order. -/
def strLeB : List Char → List Char → Bool
  | [], _ => true
  | _ :: _, [] => false
  | a :: as, b :: bs =>
    if a.toNat < b.toNat then true
    else if b.toNat < a.toNat then false
    else strLeB as bs

/-- Python `needle in haystack`: substring occurrence test. -/
def isSubstr (n : List Char) : List Char → Bool
  | [] => n.isEmpty
  | c :: rest => n.isPrefixOf (c :: rest) || isSubstr n rest

/-! ## Data model (models.py)

Stored records mirror the dict entries of `medicines_db` / `categories_db`:
the validated model fields plus `_id` (field `id` here), `created_at`,
`updated_at`. -/

/-- A stored medicine record (an entry of `medicines_db`). `price` is the
source's optional float, modelled as an optional integer quantity; float
rounding plays no role in any claim. -/
structure MedicineRec where
  id : String
  name : String
  category : String
  dosage : String
  manufacturer : String
  expiry_date : Nat
  stock_quantity : Int
  price : Option Int
  description : Option String
  created_at : Nat
  updated_at : Nat
deriving Repr, DecidableEq

/-- A stored category record (an entry of `categories_db`). -/
structure CategoryRec where
  id : String
  name : String
  description : Option String
  created_at : Nat
  updated_at : Nat
deriving Repr, DecidableEq

/-- The validated payload of pydantic `MedicineCreate` (= `MedicineBase`):
normalized field values ready for storage. -/
structure MedicineCreate where
  name : String
  category : String
  dosage : String
  manufacturer : String
  expiry_date : Nat
  stock_quantity : Int
  price : Option Int
  description : Option String
deriving Repr, DecidableEq

/-- The validated payload of pydantic `MedicineUpdate`: `none` models a field
absent from the partial-update input (source `exclude_unset=True` drops it). -/
structure MedicineUpdate where
  name : Option String
  category : Option String
  dosage : Option String
  manufacturer : Option String
  expiry_date : Option Nat
  stock_quantity : Option Int
  price : Option Int
  description : Option String
deriving Repr, DecidableEq

/-- Raw (pre-validation) medicine creation input, as received by the
`MedicineCreate` pydantic model. -/
structure RawMedicine where
  name : String
  category : String
  dosage : String
  manufacturer : String
  expiry_date : Nat
  stock_quantity : Int
  price : Option Int
  description : Option String
deriving Repr, DecidableEq

/-- Raw (pre-validation) partial-update input, as received by the
`MedicineUpdate` pydantic model; `none` = field absent. -/
structure RawMedicineUpdate where
  name : Option String
  category : Option String
  dosage : Option String
  manufacturer : Option String
  expiry_date : Option Nat
  stock_quantity : Option Int
  price : Option Int
  description : Option String
deriving Repr, DecidableEq

/-! ## Validation and normalization (models.py)

Each pydantic field runs its declarative `Field` constraints (`min_length`,
`max_length`, `ge`) on the raw value first, then the custom `field_validator`.
A pydantic `ValidationError` collects one message per failing field, in field
declaration order; `medicineCreate_validate` mirrors that by concatenating
per-field error lists. Error strings follow the source messages. -/

/-- `MedicineBase.validate_text_fields` (applied to `name` and
`manufacturer`): reject empty/whitespace-only, else trim and title-case. -/
def validate_text_fields (v : String) : Except String String :=
  if (pyStrip v).data.isEmpty then
    .error "Field cannot be empty or contain only whitespace"
  else .ok (pyTitle (pyStrip v))

/-- `MedicineBase.validate_category`: reject empty, else trim and
lower-case. -/
def validate_category (v : String) : Except String String :=
  if (pyStrip v).data.isEmpty then .error "Category cannot be empty"
  else .ok (pyLower (pyStrip v))

/-- `MedicineBase.validate_dosage`: reject empty, else trim. -/
def validate_dosage (v : String) : Except String String :=
  if (pyStrip v).data.isEmpty then .error "Dosage cannot be empty"
  else .ok (pyStrip v)

/-- `MedicineBase.validate_expiry_date`: reject a date on or before today. -/
def validate_expiry_date (today : Nat) (v : Nat) : Except String Nat :=
  if v ≤ today then .error "Expiry date must be in the future"
  else .ok v

/-- `Field(min_length=1, max_length=maxL)` length constraints on a raw string,
then the given custom validator. -/
def withLen (maxL : Nat) (f : String → Except String String) (v : String) :
    Except String String :=
  if v.data.length < 1 then .error "String should have at least 1 character"
  else if maxL < v.data.length then
    .error "String should have at most the maximum length"
  else f v

/-- `Field(ge=0)` on `stock_quantity`. -/
def validate_stock (v : Int) : Except String Int :=
  if v < 0 then .error "Input should be greater than or equal to 0"
  else .ok v

/-- `Field(None, ge=0)` on `price`. -/
def validate_price : Option Int → Except String (Option Int)
  | none => .ok none
  | some p =>
    if p < 0 then .error "Input should be greater than or equal to 0"
    else .ok (some p)

/-- `Field(None, max_length=500)` on `description`. -/
def validate_description : Option String → Except String (Option String)
  | none => .ok none
  | some d =>
    if 500 < d.data.length then
      .error "String should have at most the maximum length"
    else .ok (some d)

/-- The error messages contributed by one field validation. -/
def errsOf {α : Type} : Except String α → List String
  | .error e => [e]
  | .ok _ => []

/-- Full validation of a raw `MedicineCreate` input: every field is validated
independently; on success the normalized payload is produced, otherwise the
collected per-field messages (in field declaration order). -/
def medicineCreate_validate (today : Nat) (r : RawMedicine) :
    Except (List String) MedicineCreate :=
  match withLen 200 validate_text_fields r.name,
        withLen 100 validate_category r.category,
        withLen 100 validate_dosage r.dosage,
        withLen 200 validate_text_fields r.manufacturer,
        validate_expiry_date today r.expiry_date,
        validate_stock r.stock_quantity,
        validate_price r.price,
        validate_description r.description with
  | .ok n, .ok c, .ok d, .ok m, .ok e, .ok s, .ok p, .ok de =>
    .ok ⟨n, c, d, m, e, s, p, de⟩
  | en, ec, ed, em, ee, es, ep, ede =>
    .error (errsOf en ++ errsOf ec ++ errsOf ed ++ errsOf em ++
            errsOf ee ++ errsOf es ++ errsOf ep ++ errsOf ede)

/-- `MedicineUpdate.validate_text_fields` with its `Field` length
constraints: an absent field passes through; a present field is rejected
when empty/whitespace-only, else trimmed and title-cased. -/
def validate_text_fields_upd : Option String → Except String (Option String)
  | none => .ok none
  | some v =>
    if v.data.length < 1 then .error "String should have at least 1 character"
    else if 200 < v.data.length then
      .error "String should have at most the maximum length"
    else if (pyStrip v).data.isEmpty then
      .error "Field cannot be empty or contain only whitespace"
    else .ok (some (pyTitle (pyStrip v)))

/-- `MedicineUpdate.validate_category` with its `Field` length
constraints. -/
def validate_category_upd : Option String → Except String (Option String)
  | none => .ok none
  | some v =>
    if v.data.length < 1 then .error "String should have at least 1 character"
    else if 100 < v.data.length then
      .error "String should have at most the maximum length"
    else if (pyStrip v).data.isEmpty then .error "Category cannot be empty"
    else .ok (some (pyLower (pyStrip v)))

/-- `MedicineUpdate.validate_dosage` with its `Field` length constraints. -/
def validate_dosage_upd : Option String → Except String (Option String)
  | none => .ok none
  | some v =>
    if v.data.length < 1 then .error "String should have at least 1 character"
    else if 100 < v.data.length then
      .error "String should have at most the maximum length"
    else if (pyStrip v).data.isEmpty then .error "Dosage cannot be empty"
    else .ok (some (pyStrip v))

/-- `MedicineUpdate` has NO validator for `expiry_date`
(`expiry_date: Optional[date] = None` carries no constraint): any supplied
date passes through unchanged. -/
def validate_expiry_upd : Option Nat → Except String (Option Nat)
  | v => .ok v

/-- `Field(None, ge=0)` on update `stock_quantity`. -/
def validate_stock_upd : Option Int → Except String (Option Int)
  | none => .ok none
  | some v => (validate_stock v).map some

/-- Full validation of a raw `MedicineUpdate` input. Note that, unlike
`medicineCreate_validate`, it takes no `today` parameter: no date validation
happens in this model. -/
def medicineUpdate_validate (r : RawMedicineUpdate) :
    Except (List String) MedicineUpdate :=
  match validate_text_fields_upd r.name,
        validate_category_upd r.category,
        validate_dosage_upd r.dosage,
        validate_text_fields_upd r.manufacturer,
        validate_expiry_upd r.expiry_date,
        validate_stock_upd r.stock_quantity,
        validate_price r.price,
        validate_description r.description with
  | .ok n, .ok c, .ok d, .ok m, .ok e, .ok s, .ok p, .ok de =>
    .ok ⟨n, c, d, m, e, s, p, de⟩
  | en, ec, ed, em, ee, es, ep, ede =>
    .error (errsOf en ++ errsOf ec ++ errsOf ed ++ errsOf em ++
            errsOf ee ++ errsOf es ++ errsOf ep ++ errsOf ede)

/-- `CategoryBase.validate_name` together with its `Field(min_length=1,
max_length=100)` constraints: reject empty, else trim and lower-case. -/
def category_validate_name (v : String) : Except String String :=
  if v.data.length < 1 then .error "String should have at least 1 character"
  else if 100 < v.data.length then
    .error "String should have at most the maximum length"
  else if (pyStrip v).data.isEmpty then
    .error "Category name cannot be empty"
  else .ok (pyLower (pyStrip v))

/-! ## Record store and query engine (database.py)

Every database function first awaits `get_database()`, which seeds
`categories_db` with five sample categories when (and only when) it is empty,
and never touches `medicines_db`. The seeding is modelled by `ensureSeed`,
parameterized by the five fresh `uuid4` identifier strings and the timestamp.
Medicine-store operations are therefore modelled on `medicines_db` alone
(the hidden `get_database()` call cannot affect them); category operations
include the `ensureSeed` step explicitly. -/

/-- The `sample_categories` seed data of `get_database` (name,
description). -/
def sampleCategories : List (String × String) :=
  [("antibiotics", "Antibiotic medications"),
   ("antipyretics", "reduce fever"),
   ("painkillers", "Pain relief medications"),
   ("vitamins", "Vitamin supplements"),
   ("antacids", "Stomach acid relief")]

/-- `get_database`, restricted to its effect on `categories_db`: seed the
sample categories when the store is empty, otherwise leave it alone. -/
def ensureSeed (cats : List CategoryRec) (freshIds : List String) (now : Nat) :
    List CategoryRec :=
  if cats.isEmpty then
    (sampleCategories.zip freshIds).map
      (fun p => ⟨p.2, p.1.1, some p.1.2, now, now⟩)
  else cats

/-- `create_medicine`: assign a fresh identifier and both timestamps, store
(insertion at the back of the insertion-ordered dict), return the record. -/
def create_medicine (db : List MedicineRec) (m : MedicineCreate) (mid : String)
    (now : Nat) : List MedicineRec × MedicineRec :=
  let newRec : MedicineRec :=
    ⟨mid, m.name, m.category, m.dosage, m.manufacturer, m.expiry_date,
     m.stock_quantity, m.price, m.description, now, now⟩
  (db ++ [newRec], newRec)

/-- The category filter of `get_medicines`: Python
`if category and medicine_data.get("category", "").lower() != category.lower():
continue` — a `None` or empty-string filter keeps every record (falsy test),
otherwise compare lower-cased. -/
def passes_category (c : Option String) (m : MedicineRec) : Bool :=
  match c with
  | none => true
  | some cv =>
    if cv.data.isEmpty then true
    else pyLower m.category == pyLower cv

/-- The search filter of `get_medicines`: a `None` or empty-string search
keeps every record, otherwise the lower-cased search text must occur in the
lower-cased name or the lower-cased manufacturer. -/
def passes_search (s : Option String) (m : MedicineRec) : Bool :=
  match s with
  | none => true
  | some sv =>
    if sv.data.isEmpty then true
    else
      isSubstr (pyLower sv).data (pyLower m.name).data ||
        isSubstr (pyLower sv).data (pyLower m.manufacturer).data

/-- The expired filter of `get_medicines`: when supplied, keep exactly the
records whose `expiry_date <= today` status equals the flag. (The source's
defensive branch for a missing expiry date cannot fire: every stored record
carries one.) -/
def passes_expired (e : Option Bool) (today : Nat) (m : MedicineRec) : Bool :=
  match e with
  | none => true
  | some ev => decide (m.expiry_date ≤ today) == ev

/-- The conjunction of the three `continue` tests of `get_medicines`. -/
def medFilter (c s : Option String) (e : Option Bool) (today : Nat)
    (m : MedicineRec) : Bool :=
  passes_category c m && passes_search s m && passes_expired e today m

/-- The sort comparator of `get_medicines`:
`filtered_medicines.sort(key=lambda x: x.get("name", ""))` — ascending
code-point lexicographic order on the stored name. -/
def nameLe (a b : MedicineRec) : Bool := strLeB a.name.data b.name.data

/-- `get_medicines`: filter (three tests combined by sequential `continue`,
i.e. logical AND), stable-sort ascending by name, then the Python slice
`filtered[skip : skip + limit]` (for non-negative `skip`/`limit`: drop
`skip`, then take at most `limit`). -/
def get_medicines (db : List MedicineRec) (skip limit : Nat)
    (category search : Option String) (expired : Option Bool) (today : Nat) :
    List MedicineRec :=
  (((db.filter (medFilter category search expired today)).mergeSort
    nameLe).drop skip).take limit

/-- `get_medicine_by_id`: `medicines_db.get(medicine_id)`. -/
def get_medicine_by_id (db : List MedicineRec) (mid : String) :
    Option MedicineRec :=
  db.find? (fun m => m.id == mid)

/-- `MedicineUpdate.model_dump(exclude_unset=True)` is empty iff every field
is absent. -/
def mu_isEmpty (u : MedicineUpdate) : Bool :=
  u.name.isNone && u.category.isNone && u.dosage.isNone &&
  u.manufacturer.isNone && u.expiry_date.isNone && u.stock_quantity.isNone &&
  u.price.isNone && u.description.isNone

/-- `current_data.update(update_data)` followed by
`current_data["updated_at"] = datetime.now()`: supplied fields overwrite,
absent fields keep their stored values, `updated_at` is refreshed, `_id` and
`created_at` are untouched (they are never part of the dump). -/
def apply_update (m : MedicineRec) (u : MedicineUpdate) (now : Nat) :
    MedicineRec :=
  { m with
    name := u.name.getD m.name,
    category := u.category.getD m.category,
    dosage := u.dosage.getD m.dosage,
    manufacturer := u.manufacturer.getD m.manufacturer,
    expiry_date := u.expiry_date.getD m.expiry_date,
    stock_quantity := u.stock_quantity.getD m.stock_quantity,
    price := match u.price with | some p => some p | none => m.price,
    description :=
      match u.description with | some d => some d | none => m.description,
    updated_at := now }

/-- `update_medicine`: `None` when the identifier is absent; with an empty
partial field set, return the current record and leave the store untouched;
otherwise merge, refresh `updated_at`, and re-assign the dict key (which
keeps its position in the insertion order). Returns the new store paired
with the returned record. -/
def update_medicine (db : List MedicineRec) (mid : String) (u : MedicineUpdate)
    (now : Nat) : Option (List MedicineRec × MedicineRec) :=
  match get_medicine_by_id db mid with
  | none => none
  | some m =>
    if mu_isEmpty u then some (db, m)
    else
      let m2 := apply_update m u now
      some (db.map (fun r => if r.id == mid then m2 else r), m2)

/-- `delete_medicine`: remove the record if present, report whether one was
removed. -/
def delete_medicine (db : List MedicineRec) (mid : String) :
    List MedicineRec × Bool :=
  if db.any (fun m => m.id == mid) then
    (db.filter (fun m => !(m.id == mid)), true)
  else (db, false)

/-- `create_category`: after the `get_database()` seeding step, reject when
any stored category name equals the new name case-insensitively (the source
raises `ValueError`), otherwise assign identifier and timestamps, store,
return. -/
def create_category (cats : List CategoryRec) (freshIds : List String)
    (nm : String) (descr : Option String) (cid : String) (now : Nat) :
    Except String (List CategoryRec × CategoryRec) :=
  let db1 := ensureSeed cats freshIds now
  if db1.any (fun c => pyLower c.name == pyLower nm) then
    .error ("Category " ++ nm ++ " already exists")
  else
    let newCat : CategoryRec := ⟨cid, nm, descr, now, now⟩
    .ok (db1 ++ [newCat], newCat)

/-- `get_categories`: all categories sorted ascending by name. -/
def get_categories (cats : List CategoryRec) (freshIds : List String)
    (now : Nat) : List CategoryRec :=
  (ensureSeed cats freshIds now).mergeSort
    (fun a b => strLeB a.name.data b.name.data)

/-- The referencing-medicine test of `delete_category`:
`med.get("category", "").lower() == category_name.lower()`. -/
def refMatch (catName : String) (m : MedicineRec) : Bool :=
  pyLower m.category == pyLower catName

/-- Outcome of `delete_category`, carrying the resulting category store:
`notFound` models `return False`, `conflict n` models the raised
`ValueError` whose message carries the count `n` of referencing medicines
(the store is left as it was), `deleted` models `del` + `return True`. -/
inductive DeleteCategoryResult where
  | notFound (cats : List CategoryRec)
  | conflict (count : Nat) (cats : List CategoryRec)
  | deleted (cats : List CategoryRec)
deriving Repr, DecidableEq

/-- `delete_category`: after the seeding step, not-found when the identifier
is absent; conflict carrying the count of medicines whose `category` equals
this category's `name` case-insensitively, when that count is positive;
otherwise remove the category. -/
def delete_category (cats : List CategoryRec) (meds : List MedicineRec)
    (freshIds : List String) (now : Nat) (cid : String) :
    DeleteCategoryResult :=
  let db1 := ensureSeed cats freshIds now
  match db1.find? (fun c => c.id == cid) with
  | none => .notFound db1
  | some cat =>
    let refs := meds.filter (refMatch cat.name)
    if refs.isEmpty then .deleted (db1.filter (fun c => !(c.id == cid)))
    else .conflict refs.length db1

/-! ## Route layer (main.py), the part a claim depends on -/

/-- `update_existing_medicine` (PUT route): before calling
`update_medicine`, reject a supplied expiry date that is on or before today
(`if medicine_update.expiry_date and medicine_update.expiry_date <=
date.today()`); a date object is always truthy, so the test fires exactly
when the field was supplied. A `None` from `update_medicine` becomes the
not-found error. -/
def update_existing_medicine (db : List MedicineRec) (mid : String)
    (u : MedicineUpdate) (today now : Nat) :
    Except String (List MedicineRec × MedicineRec) :=
  let go : Except String (List MedicineRec × MedicineRec) :=
    match update_medicine db mid u now with
    | none => .error ("Medicine with ID " ++ mid ++ " not found")
    | some r => .ok r
  match u.expiry_date with
  | some d => if d ≤ today then .error "Expiry date must be in the future" else go
  | none => go

/-! ## Operation sequences over the whole store (for the timestamp
invariant) -/

/-- The two in-memory collections. -/
structure StoreState where
  meds : List MedicineRec
  cats : List CategoryRec
deriving Repr, DecidableEq

/-- One mutating store operation with its validated payload. -/
inductive StoreOp where
  | createMed (m : MedicineCreate) (mid : String)
  | updateMed (mid : String) (u : MedicineUpdate)
  | deleteMed (mid : String)
  | createCat (nm : String) (descr : Option String) (cid : String)
  | deleteCat (cid : String)
deriving Repr

/-- Effect of one operation on the store at time `now` (with the fresh seed
identifiers `get_database()` would use). Every source operation first runs
`get_database()`, so the category store is seeded in every branch; a raised
rejection leaves the (seeded) store otherwise unchanged. -/
def applyOp (s : StoreState) (freshIds : List String) (now : Nat) :
    StoreOp → StoreState
  | .createMed m mid =>
    ⟨(create_medicine s.meds m mid now).1, ensureSeed s.cats freshIds now⟩
  | .updateMed mid u =>
    match update_medicine s.meds mid u now with
    | none => ⟨s.meds, ensureSeed s.cats freshIds now⟩
    | some r => ⟨r.1, ensureSeed s.cats freshIds now⟩
  | .deleteMed mid =>
    ⟨(delete_medicine s.meds mid).1, ensureSeed s.cats freshIds now⟩
  | .createCat nm descr cid =>
    match create_category s.cats freshIds nm descr cid now with
    | .error _ => ⟨s.meds, ensureSeed s.cats freshIds now⟩
    | .ok r => ⟨s.meds, r.1⟩
  | .deleteCat cid =>
    match delete_category s.cats s.meds freshIds now cid with
    | .notFound db1 => ⟨s.meds, db1⟩
    | .conflict _ db1 => ⟨s.meds, db1⟩
    | .deleted db2 => ⟨s.meds, db2⟩

/-- Run a list of timestamped operations in order. -/
def runOps (s : StoreState) :
    List (StoreOp × List String × Nat) → StoreState
  | [] => s
  | (op, ids, now) :: rest => runOps (applyOp s ids now op) rest

/-- The timestamps of an operation list are chronological: each is at least
`t` and they do not decrease. -/
def TimeOK (t : Nat) : List (StoreOp × List String × Nat) → Prop
  | [] => True
  | (_, _, now) :: rest => t ≤ now ∧ TimeOK now rest

/-- Timestamp invariant at clock bound `t`: every stored record satisfies
`created_at ≤ updated_at`, and no stored timestamp is in the future. -/
def InvAt (t : Nat) (s : StoreState) : Prop :=
  (∀ m ∈ s.meds, m.created_at ≤ m.updated_at ∧ m.updated_at ≤ t) ∧
  (∀ c ∈ s.cats, c.created_at ≤ c.updated_at ∧ c.updated_at ≤ t)

/-! ## Spec-side formulations (from the specification text, for refinement
statements) -/

/-- Spec wording for the category filter: the record's `category` field
equals the filter case-insensitively. -/
def spec_category_sat (cv : String) (m : MedicineRec) : Prop :=
  pyLower m.category = pyLower cv

/-- Spec wording for the search filter: the lower-cased search text is a
substring of the lower-cased name or of the lower-cased manufacturer. -/
def spec_search_sat (sv : String) (m : MedicineRec) : Prop :=
  isSubstr (pyLower sv).data (pyLower m.name).data = true ∨
  isSubstr (pyLower sv).data (pyLower m.manufacturer).data = true

/-- Spec wording for the expired filter: `is_expired = (expiry_date ≤ today)`
must equal the flag. -/
def spec_expired_sat (ev : Bool) (today : Nat) (m : MedicineRec) : Prop :=
  decide (m.expiry_date ≤ today) = ev

/-- A medicine satisfies every supplied filter (filters combine by AND; an
absent filter imposes no constraint; a supplied but empty-string category
filter imposes no constraint either — the amendment forced by the code's
falsy-string test). -/
def spec_filters_sat (c s : Option String) (e : Option Bool) (today : Nat)
    (m : MedicineRec) : Prop :=
  (∀ cv, c = some cv → cv ≠ "" → spec_category_sat cv m) ∧
  (∀ sv, s = some sv → spec_search_sat sv m) ∧
  (∀ ev, e = some ev → spec_expired_sat ev today m)

/-! ## Concrete fixtures used by witnesses and counterexamples -/

/-- A stored medicine with category "painkillers". -/
def medOne : MedicineRec :=
  ⟨"m1", "Aspirin", "painkillers", "500mg", "Acme", 100, 10, none, none, 0, 0⟩

/-- A 101-record store (the records need not be distinct for counting). -/
def bigDB : List MedicineRec := List.replicate 101 medOne

/-- Raw creation input with spec-example denormalized fields and a future
expiry date (relative to `today = 50`). -/
def rawIbu : RawMedicine :=
  ⟨"  ibuprofen ", " PainKillers ", " 500mg ", "  acme labs ", 100, 10,
   none, none⟩

/-- Raw creation input whose expiry date (5) is in the past relative to
`today = 10`. -/
def rawPast : RawMedicine :=
  ⟨"Aspirin", "painkillers", "500mg", "Acme", 5, 10, none, none⟩

/-- Raw partial-update input supplying only an expiry date in the past
relative to `today = 10`. -/
def rawUpdPast : RawMedicineUpdate :=
  ⟨none, none, none, none, some 5, none, none, none⟩

/-- The validated payload `medicineUpdate_validate` produces for
`rawUpdPast`. -/
def uPast : MedicineUpdate :=
  ⟨none, none, none, none, some 5, none, none, none⟩

/-- A partial update touching only the stock quantity. -/
def uStock : MedicineUpdate :=
  ⟨none, none, none, none, none, some 25, none, none⟩

/-- The empty partial update (no field supplied). -/
def uEmpty : MedicineUpdate :=
  ⟨none, none, none, none, none, none, none, none⟩

/-- The normalized payload `medicineCreate_validate` produces for `rawIbu`
at `today = 50`. -/
def outIbu : MedicineCreate :=
  ⟨"Ibuprofen", "painkillers", "500mg", "Acme Labs", 100, 10, none, none⟩

/-- A nonempty category store (so `get_database()` seeding is a no-op). -/
def oneCatStore : List CategoryRec := [⟨"c0", "vitamins", none, 0, 0⟩]

/-- The category stored by the first `createCategory("Antibiotics")` call of
the C7 scenario (the validator lower-cases the name). -/
def catA : CategoryRec := ⟨"cid1", "antibiotics", none, 1, 1⟩

/-- A category store for the C8 witness. -/
def catStoreP : List CategoryRec := [⟨"cp", "painkillers", none, 0, 0⟩]

/-- Two medicines referencing "painkillers" (case-insensitively) and one
that does not. -/
def medsP : List MedicineRec :=
  [⟨"m1", "Aspirin", "painkillers", "500mg", "Acme", 100, 10, none, none,
    0, 0⟩,
   ⟨"m2", "Ibuprofen", "PainKillers", "200mg", "Acme", 100, 10, none, none,
    0, 0⟩,
   ⟨"m3", "Vitamin C", "vitamins", "1g", "Acme", 100, 10, none, none, 0, 0⟩]

/-- A validated creation payload used by the C9 witness. -/
def mcSample : MedicineCreate :=
  ⟨"Aspirin", "painkillers", "500mg", "Acme", 100, 10, none, none⟩

/-- A small chronological operation sequence for the C9 witness: create a
medicine at time 1, update its stock at time 3. -/
def opsSample : List (StoreOp × List String × Nat) :=
  [(StoreOp.createMed mcSample "m1", ["s1", "s2", "s3", "s4", "s5"], 1),
   (StoreOp.updateMed "m1" uStock, ["s1", "s2", "s3", "s4", "s5"], 3)]

/-! ## String-order lemmas -/

theorem strLeB_nil_left (b : List Char) : strLeB [] b = true := by
  cases b <;> rfl

theorem strLeB_trans (a : List Char) :
    ∀ b c, strLeB a b = true → strLeB b c = true → strLeB a c = true := by
  induction a with
  | nil => intro b c _ _; exact strLeB_nil_left c
  | cons x xs ih =>
    intro b c hab hbc
    cases b with
    | nil => simp [strLeB] at hab
    | cons y ys =>
      cases c with
      | nil => simp [strLeB] at hbc
      | cons z zs =>
        simp only [strLeB] at hab hbc ⊢
        by_cases h1 : x.toNat < y.toNat <;>
          by_cases h2 : y.toNat < z.toNat <;>
            by_cases h3 : y.toNat < x.toNat <;>
              by_cases h4 : z.toNat < y.toNat <;>
                simp [h1, h2, h3, h4] at hab hbc ⊢ <;>
                  first
                    | omega
                    | exact Or.inr ⟨by omega, ih ys zs hab hbc⟩

theorem strLeB_total (a : List Char) :
    ∀ b, (strLeB a b || strLeB b a) = true := by
  induction a with
  | nil => intro b; simp [strLeB_nil_left]
  | cons x xs ih =>
    intro b
    cases b with
    | nil => simp [strLeB]
    | cons y ys =>
      simp only [strLeB]
      rcases Nat.lt_trichotomy x.toNat y.toNat with h | h | h
      · simp [h]
      · have h1 : ¬ x.toNat < y.toNat := by omega
        have h2 : ¬ y.toNat < x.toNat := by omega
        simpa [h1, h2] using ih ys
      · simp [h, Nat.lt_asymm h]

theorem isSubstr_nil_left (l : List Char) : isSubstr [] l = true := by
  cases l with
  | nil => rfl
  | cons c rest => simp [isSubstr, List.isPrefixOf]

theorem nameLe_trans (a b c : MedicineRec) :
    nameLe a b = true → nameLe b c = true → nameLe a c = true :=
  strLeB_trans a.name.data b.name.data c.name.data

theorem nameLe_total (a b : MedicineRec) :
    (nameLe a b || nameLe b a) = true :=
  strLeB_total a.name.data b.name.data

theorem ensureSeed_invAt {t now : Nat} {cats : List CategoryRec}
    (freshIds : List String)
    (h : ∀ c ∈ cats, c.created_at ≤ c.updated_at ∧ c.updated_at ≤ t)
    (hle : t ≤ now) :
    ∀ c ∈ ensureSeed cats freshIds now,
      c.created_at ≤ c.updated_at ∧ c.updated_at ≤ now := by
  intro c hc
  unfold ensureSeed at hc
  split at hc
  · rcases List.mem_map.1 hc with ⟨p, _, rfl⟩
    exact ⟨le_refl now, le_refl now⟩
  · exact ⟨(h c hc).1, le_trans (h c hc).2 hle⟩

theorem applyOp_invAt {t now : Nat} {s : StoreState}
    (freshIds : List String) (op : StoreOp)
    (h : InvAt t s) (hle : t ≤ now) :
    InvAt now (applyOp s freshIds now op) := by
  obtain ⟨hm, hc⟩ := h
  have hm2 : ∀ m ∈ s.meds, m.created_at ≤ m.updated_at ∧ m.updated_at ≤ now :=
    fun m hmm => ⟨(hm m hmm).1, le_trans (hm m hmm).2 hle⟩
  have hcseed := ensureSeed_invAt freshIds hc hle
  cases op with
  | createMed m mid =>
    refine ⟨?_, hcseed⟩
    intro r hr
    simp only [applyOp, create_medicine, List.mem_append, List.mem_singleton] at hr
    rcases hr with hr | rfl
    · exact hm2 r hr
    · exact ⟨le_refl now, le_refl now⟩
  | updateMed mid u =>
    refine ⟨?_, ?_⟩
    · intro r hr
      simp only [applyOp] at hr
      rcases hfind : update_medicine s.meds mid u now with _ | ⟨db2, m2⟩
      · rw [hfind] at hr; exact hm2 r hr
      · rw [hfind] at hr
        simp only at hr
        unfold update_medicine at hfind
        rcases hget : get_medicine_by_id s.meds mid with _ | m0
        · rw [hget] at hfind; exact absurd hfind (by simp)
        · rw [hget] at hfind
          have hm0 : m0 ∈ s.meds := List.mem_of_find?_eq_some hget
          by_cases hemp : mu_isEmpty u = true
          · simp only [hemp, if_true] at hfind
            obtain ⟨hdb, _⟩ := Prod.mk.injEq .. ▸ (Option.some.injEq .. ▸ hfind)
            rw [← hdb] at hr
            exact hm2 r hr
          · simp only [hemp, if_false, Bool.false_eq_true] at hfind
            obtain ⟨hdb, _⟩ := Prod.mk.injEq .. ▸ (Option.some.injEq .. ▸ hfind)
            rw [← hdb] at hr
            rcases List.mem_map.1 hr with ⟨r0, hr0, rfl⟩
            by_cases hid : r0.id == mid
            · simp only [hid, if_true, apply_update]
              exact ⟨le_trans (hm m0 hm0).1 (le_trans (hm m0 hm0).2 hle),
                     le_refl now⟩
            · simp only [hid, Bool.false_eq_true, if_false]
              exact hm2 r0 hr0
    · simp only [applyOp]
      rcases hfind : update_medicine s.meds mid u now with _ | r <;> exact hcseed
  | deleteMed mid =>
    refine ⟨?_, hcseed⟩
    intro r hr
    simp only [applyOp, delete_medicine] at hr
    split at hr
    · exact hm2 r (List.mem_filter.1 hr).1
    · exact hm2 r hr
  | createCat nm descr cid =>
    rcases hcr : create_category s.cats freshIds nm descr cid now
      with e | ⟨db2, c2⟩ <;> simp only [applyOp, hcr]
    · exact ⟨hm2, hcseed⟩
    · refine ⟨hm2, ?_⟩
      intro c hcmem
      simp only [create_category] at hcr
      by_cases hdup : ((ensureSeed s.cats freshIds now).any
          fun c => pyLower c.name == pyLower nm) = true
      · rw [if_pos hdup] at hcr
        exact absurd hcr (by simp)
      · rw [if_neg hdup] at hcr
        simp only [Except.ok.injEq, Prod.mk.injEq] at hcr
        obtain ⟨hdb, _⟩ := hcr
        rw [← hdb] at hcmem
        simp only [List.mem_append, List.mem_singleton] at hcmem
        rcases hcmem with hcmem | rfl
        · exact hcseed c hcmem
        · exact ⟨le_refl now, le_refl now⟩
  | deleteCat cid =>
    have hmeds : (applyOp s freshIds now (StoreOp.deleteCat cid)).meds =
        s.meds := by
      simp only [applyOp]
      split <;> rfl
    have hcats : ∀ c ∈ (applyOp s freshIds now (StoreOp.deleteCat cid)).cats,
        c ∈ ensureSeed s.cats freshIds now := by
      intro c hcmem
      simp only [applyOp, delete_category] at hcmem
      rcases hfind : List.find? (fun c => c.id == cid)
          (ensureSeed s.cats freshIds now) with _ | cat
      · simp only [hfind] at hcmem
        exact hcmem
      · simp only [hfind] at hcmem
        by_cases hre : (List.filter (refMatch cat.name) s.meds).isEmpty = true
        · simp only [hre, if_true] at hcmem
          exact (List.mem_filter.1 hcmem).1
        · simp only [hre, Bool.false_eq_true, if_false] at hcmem
          exact hcmem
    constructor
    · rw [hmeds]; exact hm2
    · intro c hcmem
      exact hcseed c (hcats c hcmem)

/-! ## Filter characterization lemmas -/

theorem passes_category_iff (c : Option String) (m : MedicineRec) :
    passes_category c m = true ↔
      (∀ cv, c = some cv → cv ≠ "" → spec_category_sat cv m) := by
  cases c with
  | none => simp [passes_category]
  | some cv =>
    by_cases h : cv.data.isEmpty = true
    · have hcv : cv = "" := String.ext (List.isEmpty_iff.1 h)
      subst hcv
      simp [passes_category]
    · have hcv : cv ≠ "" := by
        intro heq
        subst heq
        exact h rfl
      simp only [passes_category, h, Bool.false_eq_true, if_false,
        beq_iff_eq, Option.some.injEq]
      constructor
      · intro hb cv2 heq hne
        exact heq ▸ hb
      · intro hall
        exact hall cv rfl hcv

theorem passes_search_iff (s : Option String) (m : MedicineRec) :
    passes_search s m = true ↔
      (∀ sv, s = some sv → spec_search_sat sv m) := by
  cases s with
  | none => simp [passes_search]
  | some sv =>
    by_cases h : sv.data.isEmpty = true
    · have hsv : sv.data = [] := List.isEmpty_iff.1 h
      simp only [passes_search, h, if_true, true_iff, Option.some.injEq]
      intro sv2 heq
      unfold spec_search_sat
      left
      have hlow : (pyLower sv2).data = [] := by
        rw [← heq]
        simp [pyLower, hsv]
      rw [hlow]
      exact isSubstr_nil_left _
    · simp only [passes_search, h, Bool.false_eq_true, if_false,
        Bool.or_eq_true, Option.some.injEq]
      unfold spec_search_sat
      constructor
      · intro hb sv2 heq
        exact heq ▸ hb
      · intro hall
        exact hall sv rfl

theorem passes_expired_iff (e : Option Bool) (today : Nat) (m : MedicineRec) :
    passes_expired e today m = true ↔
      (∀ ev, e = some ev → spec_expired_sat ev today m) := by
  cases e with
  | none => simp [passes_expired]
  | some ev => simp [passes_expired, spec_expired_sat]

theorem medFilter_iff_spec (c s : Option String) (e : Option Bool)
    (today : Nat) (m : MedicineRec) :
    medFilter c s e today m = true ↔ spec_filters_sat c s e today m := by
  unfold medFilter spec_filters_sat
  rw [Bool.and_eq_true, Bool.and_eq_true, passes_category_iff,
    passes_search_iff, passes_expired_iff]
  exact and_assoc

/-! ## Claim theorems -/

/-- C1 (amended): every `listMedicines(skip, limit, filters)` call keeps
exactly the medicines satisfying every supplied filter — filters combined by
logical AND, an absent filter imposing no constraint, and (the amendment) a
supplied empty-string category or search filter likewise imposing no
constraint — sorts the survivors ascending by stored name under
case-sensitive (code-point) lexical order, drops the first `skip` and takes
at most `limit`; out-of-range `skip`/`limit` yield fewer or zero results and
the function is total (never an error). -/
theorem get_medicines_filters_sort_window (db : List MedicineRec)
    (skip limit : Nat) (c s : Option String) (e : Option Bool) (today : Nat) :
    ∃ l : List MedicineRec,
      l.Perm (db.filter (medFilter c s e today)) ∧
      List.Pairwise (fun a b => nameLe a b = true) l ∧
      (∀ m, medFilter c s e today m = true ↔
        spec_filters_sat c s e today m) ∧
      get_medicines db skip limit c s e today = (l.drop skip).take limit ∧
      (get_medicines db skip limit c s e today).length ≤ limit := by
  refine ⟨(db.filter (medFilter c s e today)).mergeSort nameLe,
    List.mergeSort_perm _ _,
    List.sorted_mergeSort nameLe_trans nameLe_total _,
    fun m => medFilter_iff_spec c s e today m, rfl, ?_⟩
  unfold get_medicines
  rw [List.length_take]
  exact min_le_left _ _

unseal List.merge List.mergeSort in
/-- C1 counterexample: with a supplied (but empty-string) category filter,
the result keeps a medicine that does not satisfy the category-filter
predicate of the specification, so the result is not "exactly the medicines
that satisfy every supplied filter". -/
theorem get_medicines_empty_category_counterexample :
    medOne ∈ get_medicines [medOne] 0 100 (some "") none none 0 ∧
    ¬ spec_category_sat "" medOne := by
  constructor
  · decide
  · show ¬ (pyLower medOne.category = pyLower "")
    decide

/-- C10: a present-but-empty category or search filter string is treated
exactly like an absent filter: the result is identical to the call with the
parameter absent. -/
theorem get_medicines_empty_string_filters (db : List MedicineRec)
    (skip limit : Nat) (s : Option String) (e : Option Bool) (today : Nat)
    (c : Option String) :
    get_medicines db skip limit (some "") s e today =
      get_medicines db skip limit none s e today ∧
    get_medicines db skip limit c (some "") e today =
      get_medicines db skip limit c none e today := by
  constructor
  · have h1 : medFilter (some "") s e today = medFilter none s e today := by
      funext m
      rfl
    unfold get_medicines
    rw [h1]
  · have h2 : medFilter c (some "") e today = medFilter c none e today := by
      funext m
      rfl
    unfold get_medicines
    rw [h2]

/-- C3 counterexample: on a 101-record store, `listMedicines(skip=0)` (with
the default `limit=100`) returns 100 records, not `max(0, K-0) = 101`. -/
theorem get_medicines_skip_length_counterexample :
    bigDB.length = 101 ∧
    (get_medicines bigDB 0 100 none none none 0).length ≠
      max 0 (bigDB.length - 0) := by
  have hlen : bigDB.length = 101 := by simp [bigDB]
  have hfilter : bigDB.filter (medFilter none none none 0) = bigDB :=
    List.filter_eq_self.2 (fun m _ => rfl)
  have hres : (get_medicines bigDB 0 100 none none none 0).length = 100 := by
    unfold get_medicines
    rw [hfilter, List.length_take, List.length_drop, List.length_mergeSort,
      hlen]
    decide
  refine ⟨hlen, ?_⟩
  rw [hres, hlen]
  decide

/-- C3 (amended): `listMedicines(skip=0, limit=100)` returns records sorted
ascending by name; `listMedicines(skip=N)` (default `limit=100`) on a
K-record set returns exactly `min(100, max(0, K-N))` records — the claimed
`max(0, K-N)`, capped by the default limit — and equals the
drop-N/take-100 window of the full sorted sequence, hence preserves the
relative order of the unskipped call. -/
theorem get_medicines_skip_window (db : List MedicineRec) (N today : Nat) :
    List.Pairwise (fun a b => nameLe a b = true)
      (get_medicines db 0 100 none none none today) ∧
    (get_medicines db N 100 none none none today).length =
      min 100 (db.length - N) ∧
    get_medicines db N 100 none none none today =
      ((get_medicines db 0 db.length none none none today).drop N).take 100
    := by
  have hfilter : db.filter (medFilter none none none today) = db :=
    List.filter_eq_self.2 (fun m _ => rfl)
  have hslen : (db.mergeSort nameLe).length = db.length :=
    List.length_mergeSort db
  have hsorted : List.Pairwise (fun a b => nameLe a b = true)
      (db.mergeSort nameLe) :=
    List.sorted_mergeSort nameLe_trans nameLe_total db
  refine ⟨?_, ?_, ?_⟩
  · unfold get_medicines
    rw [hfilter, List.drop_zero]
    exact hsorted.sublist (List.take_sublist _ _)
  · unfold get_medicines
    rw [hfilter, List.length_take, List.length_drop, hslen]
  · have hfull : get_medicines db 0 db.length none none none today =
        db.mergeSort nameLe := by
      unfold get_medicines
      rw [hfilter, List.drop_zero, ← hslen, List.take_length]
    rw [hfull]
    unfold get_medicines
    rw [hfilter]

theorem runOps_invAt {t : Nat} {s : StoreState}
    (ops : List (StoreOp × List String × Nat))
    (h : InvAt t s) (hok : TimeOK t ops) :
    ∃ t2, InvAt t2 (runOps s ops) := by
  induction ops generalizing t s with
  | nil => exact ⟨t, h⟩
  | cons hd tl ih =>
    obtain ⟨op, ids, now⟩ := hd
    obtain ⟨hle, htl⟩ := hok
    exact ih (applyOp_invAt ids op h hle) htl

/-! ## Validator helper lemmas -/

theorem withLen_ok {maxL : Nat} {f : String → Except String String}
    {v w : String} (h : withLen maxL f v = .ok w) : f v = .ok w := by
  unfold withLen at h
  split at h
  · exact absurd h (by simp)
  · split at h
    · exact absurd h (by simp)
    · exact h

theorem validate_text_fields_ok {v w : String}
    (h : validate_text_fields v = .ok w) : w = pyTitle (pyStrip v) := by
  unfold validate_text_fields at h
  split at h
  · exact absurd h (by simp)
  · simp only [Except.ok.injEq] at h
    exact h.symm

theorem validate_category_ok {v w : String}
    (h : validate_category v = .ok w) : w = pyLower (pyStrip v) := by
  unfold validate_category at h
  split at h
  · exact absurd h (by simp)
  · simp only [Except.ok.injEq] at h
    exact h.symm

theorem validate_dosage_ok {v w : String}
    (h : validate_dosage v = .ok w) : w = pyStrip v := by
  unfold validate_dosage at h
  split at h
  · exact absurd h (by simp)
  · simp only [Except.ok.injEq] at h
    exact h.symm

theorem validate_text_fields_err {v : String}
    (h : (pyStrip v).data.isEmpty = true) :
    ∃ e, validate_text_fields v = .error e :=
  ⟨_, by unfold validate_text_fields; rw [if_pos h]⟩

theorem validate_category_err {v : String}
    (h : (pyStrip v).data.isEmpty = true) :
    ∃ e, validate_category v = .error e :=
  ⟨_, by unfold validate_category; rw [if_pos h]⟩

theorem validate_dosage_err {v : String}
    (h : (pyStrip v).data.isEmpty = true) :
    ∃ e, validate_dosage v = .error e :=
  ⟨_, by unfold validate_dosage; rw [if_pos h]⟩

theorem withLen_err_of_f {maxL : Nat} {f : String → Except String String}
    {v : String} (hf : ∃ e, f v = .error e) :
    ∃ e, withLen maxL f v = .error e := by
  unfold withLen
  split
  · exact ⟨_, rfl⟩
  · split
    · exact ⟨_, rfl⟩
    · exact hf

theorem medicineCreate_validate_not_ok (today : Nat) (r : RawMedicine)
    (hbad : (∃ e, withLen 200 validate_text_fields r.name = .error e) ∨
            (∃ e, withLen 100 validate_category r.category = .error e) ∨
            (∃ e, withLen 100 validate_dosage r.dosage = .error e) ∨
            (∃ e, withLen 200 validate_text_fields r.manufacturer =
              .error e)) :
    ∃ errs, medicineCreate_validate today r = .error errs := by
  unfold medicineCreate_validate
  rcases h1 : withLen 200 validate_text_fields r.name with e1 | v1 <;>
    rcases h2 : withLen 100 validate_category r.category with e2 | v2 <;>
      rcases h3 : withLen 100 validate_dosage r.dosage with e3 | v3 <;>
        rcases h4 : withLen 200 validate_text_fields r.manufacturer
          with e4 | v4 <;>
          rcases h5 : validate_expiry_date today r.expiry_date with e5 | v5 <;>
            rcases h6 : validate_stock r.stock_quantity with e6 | v6 <;>
              rcases h7 : validate_price r.price with e7 | v7 <;>
                rcases h8 : validate_description r.description with e8 | v8 <;>
                  simp only [h1, h2, h3, h4, h5, h6, h7, h8] <;>
                    first
                      | exact ⟨_, rfl⟩
                      | (rcases hbad with ⟨e, h⟩ | ⟨e, h⟩ | ⟨e, h⟩ | ⟨e, h⟩ <;>
                          first
                            | (rw [h1] at h; exact absurd h (by simp))
                            | (rw [h2] at h; exact absurd h (by simp))
                            | (rw [h3] at h; exact absurd h (by simp))
                            | (rw [h4] at h; exact absurd h (by simp)))

/-! ## C4, C5, C6 -/

/-- C4: `updateMedicine` with an empty partial field set returns the current
record unchanged with no `updated_at` bump and no store modification; with a
non-empty partial set it sets `updated_at` to the update time (strictly
later whenever the clock has advanced past the stored `updated_at`) and
every unsupplied field keeps its prior value; a nonexistent id signals
not-found. -/
theorem update_medicine_frame (db : List MedicineRec) (mid : String)
    (u : MedicineUpdate) (now : Nat) :
    (update_medicine db mid u now = none ↔
      get_medicine_by_id db mid = none) ∧
    (∀ m, get_medicine_by_id db mid = some m →
      (mu_isEmpty u = true → update_medicine db mid u now = some (db, m)) ∧
      (mu_isEmpty u = false → ∃ db2 m2,
        update_medicine db mid u now = some (db2, m2) ∧
        m2.updated_at = now ∧
        (m.updated_at < now → m.updated_at < m2.updated_at) ∧
        m2.created_at = m.created_at ∧
        m2.id = m.id ∧
        (u.name = none → m2.name = m.name) ∧
        (u.category = none → m2.category = m.category) ∧
        (u.dosage = none → m2.dosage = m.dosage) ∧
        (u.manufacturer = none → m2.manufacturer = m.manufacturer) ∧
        (u.expiry_date = none → m2.expiry_date = m.expiry_date) ∧
        (u.stock_quantity = none → m2.stock_quantity = m.stock_quantity) ∧
        (u.price = none → m2.price = m.price) ∧
        (u.description = none → m2.description = m.description))) := by
  constructor
  · unfold update_medicine
    rcases hfind : get_medicine_by_id db mid with _ | m
    · simp
    · simp only [hfind]
      constructor
      · intro hcon
        split at hcon <;> exact absurd hcon (by simp)
      · intro hcon
        exact absurd hcon (by simp)
  · intro m hm
    unfold update_medicine
    rw [hm]
    dsimp only
    constructor
    · intro hemp
      rw [if_pos hemp]
    · intro hemp
      rw [if_neg (by simp [hemp])]
      refine ⟨_, _, rfl, rfl, ?_, rfl, rfl, ?_, ?_, ?_, ?_, ?_, ?_, ?_, ?_⟩
      · intro h
        exact h
      · intro h
        simp [apply_update, h]
      · intro h
        simp [apply_update, h]
      · intro h
        simp [apply_update, h]
      · intro h
        simp [apply_update, h]
      · intro h
        simp [apply_update, h]
      · intro h
        simp [apply_update, h]
      · intro h
        simp [apply_update, h]
      · intro h
        simp [apply_update, h]

/-- C4 witness: on the singleton store, the empty update returns the record
and store unchanged, and the stock-only update bumps `updated_at` to the
strictly later clock value while keeping the name. -/
theorem update_medicine_frame_witness :
    update_medicine [medOne] "m1" uEmpty 5 = some ([medOne], medOne) ∧
    ∃ db2 m2, update_medicine [medOne] "m1" uStock 5 = some (db2, m2) ∧
      m2.updated_at = 5 ∧ medOne.updated_at < m2.updated_at ∧
      m2.name = medOne.name := by
  constructor
  · exact ((update_medicine_frame [medOne] "m1" uEmpty 5).2 medOne rfl).1 rfl
  · obtain ⟨db2, m2, heq, hupd, hlt, _, _, hname, _⟩ :=
      ((update_medicine_frame [medOne] "m1" uStock 5).2 medOne rfl).2 rfl
    exact ⟨db2, m2, heq, hupd, hupd ▸ (by decide), hname rfl⟩

/-- C5: a creation input whose expiry date is on or before today is rejected
with the "Expiry date must be in the future" validation message regardless
of all other fields, and the expiry field validator accepts a date exactly
when it is strictly after today. -/
theorem create_expiry_rejection (today : Nat) (r : RawMedicine) (v : Nat) :
    (r.expiry_date ≤ today →
      ∃ errs, medicineCreate_validate today r = .error errs ∧
        "Expiry date must be in the future" ∈ errs) ∧
    (validate_expiry_date today v = .ok v ↔ today < v) := by
  constructor
  · intro hle
    have hexp : validate_expiry_date today r.expiry_date =
        .error "Expiry date must be in the future" := by
      unfold validate_expiry_date
      rw [if_pos hle]
    unfold medicineCreate_validate
    rcases h1 : withLen 200 validate_text_fields r.name with e1 | v1 <;>
      rcases h2 : withLen 100 validate_category r.category with e2 | v2 <;>
        rcases h3 : withLen 100 validate_dosage r.dosage with e3 | v3 <;>
          rcases h4 : withLen 200 validate_text_fields r.manufacturer
            with e4 | v4 <;>
            rcases h6 : validate_stock r.stock_quantity with e6 | v6 <;>
              rcases h7 : validate_price r.price with e7 | v7 <;>
                rcases h8 : validate_description r.description with e8 | v8 <;>
                  simp only [h1, h2, h3, h4, hexp, h6, h7, h8] <;>
                    exact ⟨_, rfl, by simp [errsOf]⟩
  · unfold validate_expiry_date
    by_cases h : v ≤ today
    · rw [if_pos h]
      constructor
      · intro hcon
        exact absurd hcon (by simp)
      · intro hlt
        exact absurd hlt (by omega)
    · rw [if_neg h]
      constructor
      · intro _
        omega
      · intro _
        rfl

/-- C5 witness: the concrete input with expiry 5 at `today = 10` is rejected
and the message is reported. -/
theorem create_expiry_rejection_witness :
    ∃ errs, medicineCreate_validate 10 rawPast = .error errs ∧
      "Expiry date must be in the future" ∈ errs :=
  (create_expiry_rejection 10 rawPast 0).1 (by decide)

/-- C6: every accepted creation input is normalized exactly as documented —
name and manufacturer trimmed and title-cased, category trimmed and
lower-cased, dosage trimmed — the created record stores these normalized
values verbatim (appended to the store), and a whitespace-only name,
manufacturer, category or dosage is rejected. -/
theorem create_normalization (today : Nat) (r : RawMedicine)
    (db : List MedicineRec) (mid : String) (now : Nat) :
    (∀ out, medicineCreate_validate today r = .ok out →
      out.name = pyTitle (pyStrip r.name) ∧
      out.manufacturer = pyTitle (pyStrip r.manufacturer) ∧
      out.category = pyLower (pyStrip r.category) ∧
      out.dosage = pyStrip r.dosage ∧
      (create_medicine db out mid now).2.name = out.name ∧
      (create_medicine db out mid now).2.manufacturer = out.manufacturer ∧
      (create_medicine db out mid now).2.category = out.category ∧
      (create_medicine db out mid now).2.dosage = out.dosage ∧
      (create_medicine db out mid now).1 =
        db ++ [(create_medicine db out mid now).2]) ∧
    ((pyStrip r.name).data.isEmpty = true ∨
     (pyStrip r.manufacturer).data.isEmpty = true ∨
     (pyStrip r.category).data.isEmpty = true ∨
     (pyStrip r.dosage).data.isEmpty = true →
      ∃ errs, medicineCreate_validate today r = .error errs) := by
  constructor
  · intro out hout
    unfold medicineCreate_validate at hout
    rcases h1 : withLen 200 validate_text_fields r.name with e1 | v1 <;>
      rcases h2 : withLen 100 validate_category r.category with e2 | v2 <;>
        rcases h3 : withLen 100 validate_dosage r.dosage with e3 | v3 <;>
          rcases h4 : withLen 200 validate_text_fields r.manufacturer
            with e4 | v4 <;>
            rcases h5 : validate_expiry_date today r.expiry_date
              with e5 | v5 <;>
              rcases h6 : validate_stock r.stock_quantity with e6 | v6 <;>
                rcases h7 : validate_price r.price with e7 | v7 <;>
                  rcases h8 : validate_description r.description
                    with e8 | v8 <;>
                    simp only [h1, h2, h3, h4, h5, h6, h7, h8] at hout <;>
                      first
                        | exact Except.noConfusion hout
                        | (cases hout
                           exact ⟨validate_text_fields_ok (withLen_ok h1),
                                  validate_text_fields_ok (withLen_ok h4),
                                  validate_category_ok (withLen_ok h2),
                                  validate_dosage_ok (withLen_ok h3),
                                  rfl, rfl, rfl, rfl, rfl⟩)
  · intro hbad
    apply medicineCreate_validate_not_ok today r
    rcases hbad with h | h | h | h
    · exact Or.inl (withLen_err_of_f (validate_text_fields_err h))
    · exact Or.inr (Or.inr (Or.inr
        (withLen_err_of_f (validate_text_fields_err h))))
    · exact Or.inr (Or.inl (withLen_err_of_f (validate_category_err h)))
    · exact Or.inr (Or.inr (Or.inl
        (withLen_err_of_f (validate_dosage_err h))))

/-- C6 witness: the spec examples — name "  ibuprofen " becomes "Ibuprofen",
category " PainKillers " becomes "painkillers", manufacturer "  acme labs "
becomes "Acme Labs", dosage " 500mg " becomes "500mg". -/
theorem create_normalization_witness :
    medicineCreate_validate 50 rawIbu = .ok outIbu ∧
    outIbu.name = pyTitle (pyStrip "  ibuprofen ") ∧
    outIbu.name = "Ibuprofen" ∧
    outIbu.category = "painkillers" ∧
    outIbu.manufacturer = "Acme Labs" ∧
    outIbu.dosage = "500mg" := by
  have hv : medicineCreate_validate 50 rawIbu = .ok outIbu := rfl
  have happ := (create_normalization 50 rawIbu [] "m1" 0).1 outIbu hv
  exact ⟨hv, happ.1, rfl, rfl, rfl, rfl⟩

/-! ## C2, C7, C8, C9 -/

theorem text_upd_eq_create (v : String) :
    validate_text_fields_upd (some v) =
      (withLen 200 validate_text_fields v).map some := by
  unfold validate_text_fields_upd withLen validate_text_fields
  dsimp only
  by_cases c1 : v.data.length < 1
  · rw [if_pos c1, if_pos c1]
    rfl
  · rw [if_neg c1, if_neg c1]
    by_cases c2 : 200 < v.data.length
    · rw [if_pos c2, if_pos c2]
      rfl
    · rw [if_neg c2, if_neg c2]
      by_cases c3 : (pyStrip v).data.isEmpty = true
      · rw [if_pos c3, if_pos c3]
        rfl
      · rw [if_neg c3, if_neg c3]
        rfl

theorem category_upd_eq_create (v : String) :
    validate_category_upd (some v) =
      (withLen 100 validate_category v).map some := by
  unfold validate_category_upd withLen validate_category
  dsimp only
  by_cases c1 : v.data.length < 1
  · rw [if_pos c1, if_pos c1]
    rfl
  · rw [if_neg c1, if_neg c1]
    by_cases c2 : 100 < v.data.length
    · rw [if_pos c2, if_pos c2]
      rfl
    · rw [if_neg c2, if_neg c2]
      by_cases c3 : (pyStrip v).data.isEmpty = true
      · rw [if_pos c3, if_pos c3]
        rfl
      · rw [if_neg c3, if_neg c3]
        rfl

theorem dosage_upd_eq_create (v : String) :
    validate_dosage_upd (some v) =
      (withLen 100 validate_dosage v).map some := by
  unfold validate_dosage_upd withLen validate_dosage
  dsimp only
  by_cases c1 : v.data.length < 1
  · rw [if_pos c1, if_pos c1]
    rfl
  · rw [if_neg c1, if_neg c1]
    by_cases c2 : 100 < v.data.length
    · rw [if_pos c2, if_pos c2]
      rfl
    · rw [if_neg c2, if_neg c2]
      by_cases c3 : (pyStrip v).data.isEmpty = true
      · rw [if_pos c3, if_pos c3]
        rfl
      · rw [if_neg c3, if_neg c3]
        rfl

/-- C2 counterexample: the `MedicineUpdate` validator accepts a supplied
expiry date (5) that the creation-side field validator rejects at
`today = 10` — so the expiry validation does not run in the validation
component for partial updates, and the creation and update validators
differ beyond tolerating absence. -/
theorem update_validator_no_expiry_counterexample :
    medicineUpdate_validate rawUpdPast = .ok uPast ∧
    uPast.expiry_date = some 5 ∧
    validate_expiry_date 10 5 = .error "Expiry date must be in the future" :=
  ⟨rfl, rfl, rfl⟩

/-- C2 (amended): a partial update supplying an expiry date on or before
today is rejected with the same rule and message as creation, but by the
route handler (`update_existing_medicine`) rather than by the validation
component: the `MedicineUpdate` validator passes any supplied expiry date
through unvalidated, while the name/manufacturer, category and dosage
update validators behave identically to the creation validators and differ
only in tolerating absence. -/
theorem update_expiry_route_check (db : List MedicineRec) (mid : String)
    (u : MedicineUpdate) (today now d : Nat) (r : RawMedicineUpdate)
    (v : String) :
    (u.expiry_date = some d → d ≤ today →
      update_existing_medicine db mid u today now =
        .error "Expiry date must be in the future") ∧
    (∀ u2, medicineUpdate_validate r = .ok u2 →
      u2.expiry_date = r.expiry_date) ∧
    validate_text_fields_upd (some v) =
      (withLen 200 validate_text_fields v).map some ∧
    validate_text_fields_upd none = .ok none ∧
    validate_category_upd (some v) =
      (withLen 100 validate_category v).map some ∧
    validate_category_upd none = .ok none ∧
    validate_dosage_upd (some v) =
      (withLen 100 validate_dosage v).map some ∧
    validate_dosage_upd none = .ok none := by
  refine ⟨?_, ?_, text_upd_eq_create v, rfl, category_upd_eq_create v, rfl,
    dosage_upd_eq_create v, rfl⟩
  · intro hd hle
    unfold update_existing_medicine
    rw [hd]
    dsimp only
    rw [if_pos hle]
  · intro u2 h
    unfold medicineUpdate_validate at h
    rcases h1 : validate_text_fields_upd r.name with e1 | v1 <;>
      rcases h2 : validate_category_upd r.category with e2 | v2 <;>
        rcases h3 : validate_dosage_upd r.dosage with e3 | v3 <;>
          rcases h4 : validate_text_fields_upd r.manufacturer with e4 | v4 <;>
            rcases h6 : validate_stock_upd r.stock_quantity with e6 | v6 <;>
              rcases h7 : validate_price r.price with e7 | v7 <;>
                rcases h8 : validate_description r.description with e8 | v8 <;>
                  simp only [h1, h2, h3, h4, h6, h7, h8,
                    validate_expiry_upd] at h <;>
                    first
                      | exact Except.noConfusion h
                      | (cases h
                         rfl)

/-- C2 witness: the route handler rejects the concrete past-expiry update at
`today = 10`. -/
theorem update_expiry_route_check_witness :
    update_existing_medicine [medOne] "m1" uPast 10 11 =
      .error "Expiry date must be in the future" :=
  (update_expiry_route_check [medOne] "m1" uPast 10 11 5 rawUpdPast "x").1
    rfl (by decide)

/-- C7: `createCategory` rejects with the duplicate condition exactly when
some category stored at check time (after the `get_database()` seeding
step) has a case-insensitively equal name; otherwise it assigns the new
identifier and both timestamps, appends the record and returns it. In
particular: validating "Antibiotics" normalizes it to "antibiotics",
creating it on a store without that name succeeds, and creating
"antibiotics" afterwards rejects with the duplicate condition. -/
theorem create_category_duplicate (cats : List CategoryRec)
    (freshIds : List String) (nm : String) (descr : Option String)
    (cid : String) (now : Nat) :
    ((∃ e, create_category cats freshIds nm descr cid now = .error e) ↔
      ∃ c ∈ ensureSeed cats freshIds now, pyLower c.name = pyLower nm) ∧
    ((¬ ∃ c ∈ ensureSeed cats freshIds now, pyLower c.name = pyLower nm) →
      create_category cats freshIds nm descr cid now =
        .ok (ensureSeed cats freshIds now ++ [⟨cid, nm, descr, now, now⟩],
             ⟨cid, nm, descr, now, now⟩)) ∧
    category_validate_name "Antibiotics" = .ok "antibiotics" ∧
    create_category oneCatStore [] "antibiotics" none "cid1" 1 =
      .ok (oneCatStore ++ [catA], catA) ∧
    (∃ e, create_category (oneCatStore ++ [catA]) [] "antibiotics" none
      "cid2" 2 = .error e) := by
  have hany : ((ensureSeed cats freshIds now).any
      (fun c => pyLower c.name == pyLower nm)) = true ↔
      ∃ c ∈ ensureSeed cats freshIds now, pyLower c.name = pyLower nm := by
    rw [List.any_eq_true]
    simp only [beq_iff_eq]
  refine ⟨?_, ?_, rfl, rfl, ⟨_, rfl⟩⟩
  · constructor
    · rintro ⟨e, he⟩
      simp only [create_category] at he
      by_cases hd : ((ensureSeed cats freshIds now).any
          (fun c => pyLower c.name == pyLower nm)) = true
      · exact hany.1 hd
      · rw [if_neg hd] at he
        exact Except.noConfusion he
    · intro hex
      simp only [create_category]
      rw [if_pos (hany.2 hex)]
      exact ⟨_, rfl⟩
  · intro hnot
    simp only [create_category]
    rw [if_neg (fun hd => hnot (hany.1 hd))]

/-- C7 witness: creating a fresh name on an already-initialized store
succeeds with the new identifier, both timestamps and the appended
record. -/
theorem create_category_duplicate_witness :
    create_category oneCatStore [] "antacids" none "cid9" 7 =
      .ok (ensureSeed oneCatStore [] 7 ++ [⟨"cid9", "antacids", none, 7, 7⟩],
           ⟨"cid9", "antacids", none, 7, 7⟩) :=
  (create_category_duplicate oneCatStore [] "antacids" none "cid9" 7).2.1
    (by decide)

/-- C8: `deleteCategory` signals not-found when the identifier is absent
(after the seeding step); rejects with a conflict carrying the exact count
of medicines whose category case-insensitively equals the category's name
when that count is at least one, leaving the category store unchanged (the
category still stored); otherwise removes the category — and after every
referencing medicine is deleted from the medicine store, the same delete
call succeeds. -/
theorem delete_category_conflict (cats : List CategoryRec)
    (meds : List MedicineRec) (freshIds : List String) (now : Nat)
    (cid : String) :
    ((ensureSeed cats freshIds now).find? (fun c => c.id == cid) = none →
      delete_category cats meds freshIds now cid =
        .notFound (ensureSeed cats freshIds now)) ∧
    (∀ cat, (ensureSeed cats freshIds now).find? (fun c => c.id == cid) =
        some cat →
      (1 ≤ (meds.filter (refMatch cat.name)).length →
        delete_category cats meds freshIds now cid =
          .conflict (meds.filter (refMatch cat.name)).length
            (ensureSeed cats freshIds now) ∧
        cat ∈ ensureSeed cats freshIds now) ∧
      ((meds.filter (refMatch cat.name)).length = 0 →
        delete_category cats meds freshIds now cid =
          .deleted ((ensureSeed cats freshIds now).filter
            (fun c => !(c.id == cid)))) ∧
      delete_category cats (meds.filter (fun m => !(refMatch cat.name m)))
          freshIds now cid =
        .deleted ((ensureSeed cats freshIds now).filter
          (fun c => !(c.id == cid)))) := by
  constructor
  · intro hfind
    simp only [delete_category]
    rw [hfind]
  · intro cat hfind
    refine ⟨?_, ?_, ?_⟩
    · intro hpos
      have hne : (meds.filter (refMatch cat.name)).isEmpty ≠ true := by
        intro hemp
        rw [List.isEmpty_iff] at hemp
        rw [hemp] at hpos
        exact absurd hpos (by simp)
      constructor
      · simp only [delete_category]
        rw [hfind]
        dsimp only
        rw [if_neg hne]
      · exact List.mem_of_find?_eq_some hfind
    · intro hzero
      have hemp : (meds.filter (refMatch cat.name)).isEmpty = true :=
        List.isEmpty_iff.2 (List.length_eq_zero.1 hzero)
      simp only [delete_category]
      rw [hfind]
      dsimp only
      rw [if_pos hemp]
    · have hnil : (meds.filter (fun m => !(refMatch cat.name m))).filter
          (refMatch cat.name) = [] := by
        rw [List.filter_eq_nil_iff]
        intro a ha
        have := (List.mem_filter.1 ha).2
        simp only [Bool.not_eq_true'] at this
        simp [this]
      simp only [delete_category]
      rw [hfind]
      dsimp only
      rw [if_pos (List.isEmpty_iff.2 hnil)]

/-- C8 witness: on the concrete store, deleting "painkillers" conflicts with
reference count 2, and succeeds after the two referencing medicines are
removed. -/
theorem delete_category_conflict_witness :
    delete_category catStoreP medsP [] 0 "cp" =
      .conflict (medsP.filter (refMatch "painkillers")).length
        (ensureSeed catStoreP [] 0) ∧
    (medsP.filter (refMatch "painkillers")).length = 2 ∧
    delete_category catStoreP
        (medsP.filter (fun m => !(refMatch "painkillers" m))) [] 0 "cp" =
      .deleted ((ensureSeed catStoreP [] 0).filter
        (fun c => !(c.id == "cp"))) := by
  have h := (delete_category_conflict catStoreP medsP [] 0 "cp").2
    ⟨"cp", "painkillers", none, 0, 0⟩ rfl
  exact ⟨(h.1 (by decide)).1, by decide, h.2.2⟩

/-- C9: after any chronological sequence of create, update and delete
operations starting from the empty store, every stored medicine and
category record satisfies `updated_at ≥ created_at`. -/
theorem timestamps_monotone (ops : List (StoreOp × List String × Nat))
    (hok : TimeOK 0 ops) :
    (∀ m ∈ (runOps ⟨[], []⟩ ops).meds, m.created_at ≤ m.updated_at) ∧
    (∀ c ∈ (runOps ⟨[], []⟩ ops).cats, c.created_at ≤ c.updated_at) := by
  have h0 : InvAt 0 ⟨[], []⟩ := ⟨by simp, by simp⟩
  obtain ⟨t2, h⟩ := runOps_invAt ops h0 hok
  exact ⟨fun m hm => (h.1 m hm).1, fun c hc => (h.2 c hc).1⟩

/-- C9 witness: the invariant after a concrete create-then-update
sequence with advancing clock. -/
theorem timestamps_monotone_witness :
    (∀ m ∈ (runOps ⟨[], []⟩ opsSample).meds,
      m.created_at ≤ m.updated_at) ∧
    (∀ c ∈ (runOps ⟨[], []⟩ opsSample).cats,
      c.created_at ≤ c.updated_at) :=
  timestamps_monotone opsSample ⟨by omega, by omega, trivial⟩
